import Mathlib

/-!
Shallow embedding of the `ar-wrapper` document client (src/index.js): a
versioned-document layer over the Arweave ledger.  Pure functions model the
data model, the LRU document cache, the confirmation poller, the query
paginator, the result-ordering step and the resolution fan-out of
`executeQuery`.  Network effects are abstracted as explicit oracle arguments
(status responses, transaction metadata, payload bytes); counters in the
result types record how many network calls a code path performs, so that
"no network call" claims become provable equalities.
-/

namespace ArWrapper

/-- System tag key for the document version, src/index.js line 82. -/
def VERSION : String := "DOC_VERSION"

/-- System tag key for the document name, src/index.js line 83. -/
def NAME : String := "DOC_NAME"

/-- Namespacing marker for user metadata tags, src/index.js line 84. -/
def META : String := "DOC_META"

/-- Fields of the `Document` class, src/index.js lines 22-53.  The parent
client reference is dropped (it carries no data used by the claims), the
timestamp is kept abstract as the block timestamp in seconds. -/
structure Document where
  txID : Option String
  posted : Bool
  timestamp : Option Nat
  name : String
  content : String
  version : Nat
  tags : List (String × String)
deriving Repr, DecidableEq

/-- Constructor `new Document(client, name, content, tags, version = 0)`,
src/index.js lines 43-53: txID undefined, posted false, timestamp undefined. -/
def mkDocument (name content : String) (tags : List (String × String)) (version : Nat) : Document :=
  { txID := none, posted := false, timestamp := none,
    name := name, content := content, version := version, tags := tags }

/-- The client cache `new LRUMap(cacheSize)`, src/index.js line 106, as an
association list with the most recent `set` in front.  Bounded capacity and
recency-order eviction of `lru_map` are not modelled: no claim below depends
on eviction, only on the `has`/`get`/`set` value semantics. -/
abbrev Cache := List (String × Document)

/-- Models `cache.has(k)`. -/
def cacheHas (c : Cache) (k : String) : Bool := (c.lookup k).isSome

/-- Models `cache.get(k)` (the recency bump performed by `lru_map` does not
change the value read and is omitted). -/
def cacheGet (c : Cache) (k : String) : Option Document := c.lookup k

/-- Models `cache.set(k, d)`: replaces any existing entry for `k`. -/
def cacheSet (c : Cache) (k : String) (d : Document) : Cache :=
  (k, d) :: c.filter (fun p => p.1 != k)

/-- Models `isCached(txId, desiredVersion)`, src/index.js lines 142-151.
`txId : Option String` because callers pass `document.txID`, which can be
the JS `undefined` (then `cache.has(undefined)` is false: no string-keyed
entry matches).  `desiredVersion : Option Nat` models the optional argument;
the code tests `desiredVersion !== undefined`, so a requested version of `0`
is compared exactly. -/
def isCached (cache : Cache) (txId : Option String) (desiredVersion : Option Nat) : Bool :=
  match txId with
  | none => false
  | some k =>
    match cacheGet cache k with
    | none => false
    | some cached =>
      let versionMatch :=
        match desiredVersion with
        | some v => cached.version == v
        | none => true
      cached.posted && versionMatch

/-- Result of `transactions.post(tx)` as inspected by the code: only the
numeric HTTP status is read (src/index.js line 129). -/
structure TxResult where
  status : Nat
deriving Repr, DecidableEq

/-- Outcome of the private write path: the settled promise value, the cache
after the call, and the document object after the call (the JS code mutates
`doc` in place; here the post-state is returned). -/
structure InsertOutcome where
  result : Except TxResult Document
  cache : Cache
  doc : Document
deriving Repr

/-- Models `#insert(doc)`, src/index.js lines 110-138.  Transaction
construction/signing are external; the ledger's choices are the oracle
arguments `txId` (the id the created transaction gets) and `txResult` (the
status reported by `transactions.post`).  On a non-200 status the promise
rejects with the result and nothing is mutated; on 200 the document gets
`txID`/`posted := true` and is cached under `doc.txID` (line 136). -/
def insert (cache : Cache) (doc : Document) (txId : String) (txResult : TxResult) : InsertOutcome :=
  if txResult.status ≠ 200 then
    { result := Except.error txResult, cache := cache, doc := doc }
  else
    let doc' := { doc with txID := some txId, posted := true }
    { result := Except.ok doc', cache := cacheSet cache txId doc', doc := doc' }

/-- Models `addDocument(name, content, tags)`, src/index.js lines 154-158:
builds a fresh version-0 document and delegates to `#insert`. -/
def addDocument (cache : Cache) (name content : String) (tags : List (String × String))
    (txId : String) (txResult : TxResult) : InsertOutcome :=
  insert cache (mkDocument name content tags 0) txId txResult

/-- Outcome of `updateDocument`: settled value, cache after the call, and the
number of ledger submissions (`#insert` calls reaching `transactions.post`)
the call performed. -/
structure UpdateOutcome where
  result : Except TxResult Document
  cache : Cache
  submissions : Nat
deriving Repr

/-- Models `updateDocument(document)`, src/index.js lines 161-170: if
`isCached(document.txID, document.version)` holds it returns the document
unchanged with no submission; otherwise it performs one `#insert` and
returns the document (rejecting if the insert rejected). -/
def updateDocument (cache : Cache) (doc : Document) (txId : String) (txResult : TxResult) :
    UpdateOutcome :=
  if isCached cache doc.txID (some doc.version) then
    { result := Except.ok doc, cache := cache, submissions := 0 }
  else
    let out := insert cache doc txId txResult
    match out.result with
    | Except.error e => { result := Except.error e, cache := out.cache, submissions := 1 }
    | Except.ok d => { result := Except.ok d, cache := out.cache, submissions := 1 }

/-- Status object returned by `transactions.getStatus`: the numeric HTTP
status and, when mined, the confirmed-block hash read at src/index.js
line 341. -/
structure TxStatus where
  status : Nat
  confirmedBlock : String
deriving Repr, DecidableEq

/-- Models the `backOff` loop of the `exponential-backoff` dependency as used
at src/index.js lines 182-191: attempt `i` queries `statusOf i`; a 200
status resolves with that status object, otherwise the attempt rejects and
the loop retries until `remaining` attempts are spent, finally rejecting
with the last status number.  Returns the settled value and the number of
status calls made.  Backoff delays are timing-only and not modelled. -/
def backOffGo (statusOf : Nat → TxStatus) (i : Nat) : Nat → Except Nat TxStatus × Nat
  | 0 => (Except.error 0, 0)
  | r + 1 =>
    let s := statusOf i
    if s.status = 200 then (Except.ok s, 1)
    else if r = 0 then (Except.error s.status, 1)
    else
      let rest := backOffGo statusOf (i + 1) r
      (rest.1, rest.2 + 1)

/-- Settled value of `pollForConfirmation`, src/index.js lines 173-192:
rejection of the never-posted guard, the cache short-circuit resolving
`true`, or the backoff loop's outcome. -/
inductive PollOutcome where
  | rejectedUnposted
  | cachedConfirmed
  | result (r : Except Nat TxStatus)
deriving Repr

/-- Models `pollForConfirmation(txId, maxRetries)`, src/index.js lines
173-192, paired with the number of `getStatus` calls made.  The JS guard
`if (!txId)` fires on `undefined`/`null`/empty string; a missing id is
modelled by the empty string.  `exponential-backoff` sanitises
`numOfAttempts` below 1 up to 1, hence `max maxRetries 1`. -/
def pollForConfirmation (cache : Cache) (txId : String) (maxRetries : Nat)
    (statusOf : Nat → TxStatus) : PollOutcome × Nat :=
  if txId = "" then (PollOutcome.rejectedUnposted, 0)
  else if cacheHas cache txId then (PollOutcome.cachedConfirmed, 0)
  else
    let r := backOffGo statusOf 0 (max maxRetries 1)
    (PollOutcome.result r.1, r.2)

/-- One tag of a GraphQL result node, src/index.js lines 235-238. -/
structure QTag where
  name : String
  value : String
deriving Repr, DecidableEq

/-- One GraphQL result node, src/index.js lines 230-239. -/
structure QNode where
  id : String
  owner : String
  tags : List QTag
deriving Repr, DecidableEq

/-- One GraphQL result edge, src/index.js lines 228-240. -/
structure Edge where
  cursor : String
  node : QNode
deriving Repr, DecidableEq

/-- Final state of the pagination loop of `executeQuery`, src/index.js lines
268-277: the accumulated `resultEdges`, the number of `fetchQuery` calls
made, and the final value of `nResults` (the size of the last fetched page,
or the initial 1 if no fetch happened). -/
structure PaginateResult where
  edges : List Edge
  fetches : Nat
  lastN : Nat
deriving Repr

/-- Models the `while (nResults > 0 && resultEdges.length < options.maxResults)`
loop of `executeQuery`, src/index.js lines 270-277.  The Index Query Service
is the oracle `service`, giving the page returned by the i-th `fetchQuery`
call (the code's cursor handling reads `newEdges.cursor`, a field the
GraphQL shape does not populate, so successive requests are distinguished
here only by their index). -/
def paginateGo (service : Nat → List Edge) (maxResults : Nat) (i : Nat) (acc : List Edge)
    (nResults : Nat) : PaginateResult :=
  if h : 0 < nResults ∧ acc.length < maxResults then
    { paginateGo service maxResults (i + 1) (acc ++ service i) (service i).length with
      fetches := (paginateGo service maxResults (i + 1) (acc ++ service i) (service i).length).fetches + 1 }
  else
    { edges := acc, fetches := 0, lastN := nResults }
termination_by maxResults - acc.length + (if 0 < nResults then 1 else 0)
decreasing_by
  all_goals
    simp only [List.length_append]
    obtain ⟨h1, h2⟩ := h
    by_cases h3 : 0 < (service i).length
    · simp only [if_pos h1, if_pos h3]
      omega
    · simp only [if_pos h1, if_neg h3]
      omega

/-- Entry point of the pagination loop: `nResults` starts at 1,
`resultEdges` at `[]`, src/index.js lines 268-271. -/
def paginate (service : Nat → List Edge) (maxResults : Nat) : PaginateResult :=
  paginateGo service maxResults 0 [] 1

/-- Models `edge.node.tags.find(tag => tag.name === VERSION).value`,
src/index.js line 284: `none` when no version tag exists (in JS the member
access on `undefined` throws a TypeError). -/
def findVersionTag (e : Edge) : Option String :=
  (e.node.tags.find? (fun t => t.name == VERSION)).map (fun t => t.value)

/-- Accumulator loop of the decimal parser modelling the JS number coercion
applied by subtraction: digits only, `none` on any other character (NaN). -/
def jsDigitsGo : List Char → Nat → Option Nat
  | [], acc => some acc
  | c :: cs, acc =>
    if '0' ≤ c ∧ c ≤ '9' then jsDigitsGo cs (acc * 10 + (c.toNat - 48)) else none

/-- Numeric coercion `Number(s)` of the comparator operands for canonical
decimal integer strings (the shape the client itself writes into the
version tag at src/index.js line 116); every non-canonical string maps to
`none`, standing for the NaN comparator whose sort outcome JS leaves
unspecified. -/
def jsNumber (s : String) : Option Int :=
  match s.data with
  | [] => none
  | c :: cs =>
    if c = '-' then
      if cs = [] then none else (jsDigitsGo cs 0).map (fun n => -(n : Int))
    else (jsDigitsGo (c :: cs) 0).map (fun n => (n : Int))

/-- Numeric value the sort comparator at src/index.js lines 284-285 derives
from an edge: `value || 0` maps the empty string to 0, then the subtraction
coerces the string to a number.  `none` stands for the JS failure modes: a
missing version tag (TypeError) or a non-numeric string (a NaN comparator,
whose sort outcome is unspecified). -/
def edgeVersionNum (e : Edge) : Option Int :=
  match findVersionTag e with
  | none => none
  | some v => if v = "" then some 0 else jsNumber v

/-- Models the `txIds` selection of `executeQuery`, src/index.js lines
280-286: when `versions.length === 0` the accumulated edges are mapped to
ids in arrival order WITHOUT sorting; only when a version list was given are
the edges sorted by the descending-version comparator (stably, as JS sort
is) before mapping to ids.  `none` models a comparator crash. -/
def selectTxIds (versions : List Nat) (edges : List Edge) : Option (List String) :=
  if versions = [] then
    some (edges.map (fun e => e.node.id))
  else
    (edges.mapM (fun e => (edgeVersionNum e).map (fun k => (k, e)))).map
      (fun keyed =>
        (List.insertionSort (fun a b => b.1 ≤ a.1) keyed).map (fun p => p.2.node.id))

/-- Failures of the read-by-transaction-id path, src/index.js lines 309-363,
named after the spec's error taxonomy. -/
inductive GetError where
  | notPosted
  | confirmationTimeout (lastStatus : Nat)
  | pollTypeError
  | unverifiedOwner (owner : String)
  | notADocument
deriving Repr, DecidableEq

/-- Models the resolution fan-out of `executeQuery`, src/index.js lines
289-293: each candidate id is resolved, `Promise.allSettled` plus the
`fulfilled` filter keeps exactly the successful resolutions in candidate
order, and `.slice(0, userOptions.maxResults)` truncates (`none` models a
caller options object without `maxResults`, where `slice(0, undefined)`
keeps everything). -/
def resolveDocs (resolve : String → Except GetError Document) (txIds : List String)
    (userMaxResults : Option Nat) : List Document :=
  let docs := txIds.filterMap (fun t => (resolve t).toOption)
  match userMaxResults with
  | none => docs
  | some m => docs.take m

/-- Models the cache refresh after resolution, src/index.js line 294:
`docs.forEach(doc => this.cache.set(doc.name, doc))`. -/
def cacheAfterQuery (cache : Cache) (docs : List Document) : Cache :=
  docs.foldl (fun c d => cacheSet c d.name d) cache

/-- Per-query options, src/index.js lines 14-18. -/
structure FetchOptions where
  maxRetries : Nat
  verifiedOnly : Bool
  maxResults : Nat
deriving Repr, DecidableEq

/-- On-chain payload of a document, `data()` at src/index.js lines 56-63. -/
structure WireRecord where
  name : String
  content : String
  version : Nat
  tags : List (String × String)
deriving Repr, DecidableEq

/-- Oracle for the network interactions of `getDocumentByTxId`: the status
responses seen by the poller, the transaction metadata (owner key and
decoded tags), the mined block's timestamp and the parsed transaction
payload. -/
structure ChainEnv where
  statusOf : Nat → TxStatus
  metaOwner : String
  metaTags : List QTag
  blockTimestamp : Nat
  payload : WireRecord

/-- Outcome of `getDocumentByTxId`: settled value, cache after the call and
number of `getStatus` calls made. -/
structure GetResult where
  result : Except GetError Document
  cache : Cache
  statusCalls : Nat
deriving Repr

/-- Models `getDocumentByTxId(txId, userOptions)`, src/index.js lines
309-363.  `keyN` is the admin key modulus `this.#key.n` compared against the
transaction owner at line 324.  A cache hit returns the entry at once.  On a
miss the poller runs (its cache branch cannot fire here; were it to resolve
`true`, line 341 would throw reading `.confirmed` of `true`, modelled by
`pollTypeError`), then the owner check, then the system-tag presence check,
then the document is rebuilt from the payload and cached under its NAME
(line 361). -/
def getDocumentByTxId (keyN : String) (cache : Cache) (txId : String) (opts : FetchOptions)
    (env : ChainEnv) : GetResult :=
  match cacheGet cache txId with
  | some d => { result := Except.ok d, cache := cache, statusCalls := 0 }
  | none =>
    match pollForConfirmation cache txId opts.maxRetries env.statusOf with
    | (PollOutcome.rejectedUnposted, c) =>
      { result := Except.error GetError.notPosted, cache := cache, statusCalls := c }
    | (PollOutcome.cachedConfirmed, c) =>
      { result := Except.error GetError.pollTypeError, cache := cache, statusCalls := c }
    | (PollOutcome.result (Except.error s), c) =>
      { result := Except.error (GetError.confirmationTimeout s), cache := cache, statusCalls := c }
    | (PollOutcome.result (Except.ok _), c) =>
      if opts.verifiedOnly && (env.metaOwner != keyN) then
        { result := Except.error (GetError.unverifiedOwner env.metaOwner), cache := cache,
          statusCalls := c }
      else if !(env.metaTags.any (fun t => t.name == NAME)
                && env.metaTags.any (fun t => t.name == VERSION)) then
        { result := Except.error GetError.notADocument, cache := cache, statusCalls := c }
      else
        let doc : Document :=
          { txID := some txId, posted := true, timestamp := some env.blockTimestamp,
            name := env.payload.name, content := env.payload.content,
            version := env.payload.version, tags := env.payload.tags }
        { result := Except.ok doc, cache := cacheSet cache doc.name doc, statusCalls := c }

/-! Keying-discipline predicates for the cache-consistency policy of the
spec (section 3): each states that one cache-inserting code path keys its
insertion by document name, or by transaction id.  Read-path statements are
restricted to runs that actually insert (a cache miss that resolves
successfully). -/

/-- Write path `#insert` keys its cache insertion by document name. -/
def insertKeyedByName : Prop :=
  ∀ cache doc txId, cacheHas (insert cache doc txId { status := 200 }).cache doc.name = true

/-- Write path `#insert` keys its cache insertion by transaction id. -/
def insertKeyedByTx : Prop :=
  ∀ cache doc txId, cacheHas (insert cache doc txId { status := 200 }).cache txId = true

/-- Query path `executeQuery` keys its cache insertions by document name. -/
def queryKeyedByName : Prop :=
  ∀ cache d, cacheHas (cacheAfterQuery cache [d]) d.name = true

/-- Query path `executeQuery` keys its cache insertions by transaction id. -/
def queryKeyedByTx : Prop :=
  ∀ cache d t, d.txID = some t → cacheHas (cacheAfterQuery cache [d]) t = true

/-- Read path `getDocumentByTxId` keys its cache insertion (on a miss that
resolves) by document name. -/
def readKeyedByName : Prop :=
  ∀ keyN cache txId opts env d, cacheGet cache txId = none →
    (getDocumentByTxId keyN cache txId opts env).result = Except.ok d →
    cacheHas (getDocumentByTxId keyN cache txId opts env).cache d.name = true

/-- Read path `getDocumentByTxId` keys its cache insertion (on a miss that
resolves) by transaction id. -/
def readKeyedByTx : Prop :=
  ∀ keyN cache txId opts env d, cacheGet cache txId = none →
    (getDocumentByTxId keyN cache txId opts env).result = Except.ok d →
    cacheHas (getDocumentByTxId keyN cache txId opts env).cache txId = true

/-- A single consistent keying scheme across the write, query and read
paths: either every insertion keys by document name or every insertion keys
by transaction id. -/
def uniformCacheKeying : Prop :=
  (insertKeyedByName ∧ queryKeyedByName ∧ readKeyedByName)
  ∨ (insertKeyedByTx ∧ queryKeyedByTx ∧ readKeyedByTx)

/-! Sample data used by concrete witness instantiations and evaluations. -/

/-- Sample posted document sitting in the cache under its transaction id. -/
def sampleCachedDoc : Document :=
  { txID := some "tx-a", posted := true, timestamp := some 5, name := "alpha",
    content := "c0", version := 2, tags := [] }

/-- Sample freshly constructed (unposted) document. -/
def sampleDocUnposted : Document := mkDocument "alpha" "c0" [] 0

/-- Sample chain environment whose owner does not match the admin key. -/
def sampleEnv : ChainEnv :=
  { statusOf := fun _ => { status := 404, confirmedBlock := "" },
    metaOwner := "someone-else", metaTags := [], blockTimestamp := 0,
    payload := { name := "alpha", content := "c0", version := 0, tags := [] } }

/-- Sample chain environment for a successful miss-path resolution: the
transaction is mined at once, carries both system tags, and its payload
describes the document named "alpha". -/
def successEnv : ChainEnv :=
  { statusOf := fun _ => { status := 200, confirmedBlock := "b" },
    metaOwner := "admin-key",
    metaTags := [{ name := NAME, value := "alpha" }, { name := VERSION, value := "0" }],
    blockTimestamp := 7,
    payload := { name := "alpha", content := "c0", version := 0, tags := [] } }

/-- Document that the miss path reconstructs from `successEnv` for
transaction id "tx-1". -/
def resolvedDoc : Document :=
  { txID := some "tx-1", posted := true, timestamp := some 7, name := "alpha",
    content := "c0", version := 0, tags := [] }

/-- Sample fetch options with owner verification turned off. -/
def optsNoVerify : FetchOptions := { maxRetries := 1, verifiedOnly := false, maxResults := 25 }

/-- Sample query edge carrying a version tag, for concrete evaluations of
the ordering step. -/
def vEdge (id v : String) : Edge :=
  { cursor := "",
    node := { id := id, owner := "w", tags := [{ name := VERSION, value := v }] } }

/-- Sample resolved document for the C7 witness. -/
def sampleResolvedDoc (t : String) : Document :=
  { txID := some t, posted := true, timestamp := some 1, name := "alpha", content := "c0",
    version := 0, tags := [] }

/-- Sample resolver for the C7 witness: candidate "t2" fails ownership
verification, the other two candidates resolve. -/
def sampleResolve : String → Except GetError Document :=
  fun t =>
    if t = "t2" then Except.error (GetError.unverifiedOwner "stranger")
    else Except.ok (sampleResolvedDoc t)

/-- Mocked Index Query Service of the C5 scenario: pages of sizes
25, 25, 3, 0, then empty forever. -/
def mockPages : Nat → List Edge :=
  fun i =>
    [List.replicate 25 (vEdge "p" "0"), List.replicate 25 (vEdge "p" "0"),
     List.replicate 3 (vEdge "p" "0"), []].getD i []

/-! Helper lemmas about the cache. -/

theorem cacheGet_set_self (c : Cache) (k : String) (d : Document) :
    cacheGet (cacheSet c k d) k = some d := by
  simp [cacheGet, cacheSet, List.lookup]

theorem cacheHas_set_self (c : Cache) (k : String) (d : Document) :
    cacheHas (cacheSet c k d) k = true := by
  simp [cacheHas, cacheSet, List.lookup]

/-- C2: `isCached(k, v)` returns true exactly when the cache holds an entry
for `k`, that entry's `posted` flag is true, and either no version was
requested or the entry's version equals the requested one exactly
(a requested version of 0 included, since the code tests
`desiredVersion !== undefined`). -/
theorem isCached_iff_trustworthy (cache : Cache) (k : String) (v : Option Nat) :
    isCached cache (some k) v = true ↔
      ∃ d, cacheGet cache k = some d ∧ d.posted = true ∧ (v = none ∨ v = some d.version) := by
  cases hget : cacheGet cache k with
  | none => simp [isCached, hget]
  | some d =>
    cases v with
    | none => simp [isCached, hget]
    | some n =>
      simp only [isCached, hget, Bool.and_eq_true, beq_iff_eq, Option.some.injEq,
        reduceCtorEq, false_or]
      constructor
      · rintro ⟨hp, hv⟩
        exact ⟨d, rfl, hp, hv ▸ rfl⟩
      · rintro ⟨d', hd', hp, hv⟩
        subst hd'
        exact ⟨hp, hv.symm⟩

/-- C3: when the cache holds a trustworthy entry at the document's current
version, `updateDocument` returns the document unchanged, leaves the cache
unchanged and performs zero ledger submissions; and right after a successful
submission the resulting document satisfies that guard, so a repeated
`updateDocument` is a no-op regardless of what the ledger would answer. -/
theorem updateDocument_idempotent :
    (∀ cache doc txId txResult, isCached cache doc.txID (some doc.version) = true →
        updateDocument cache doc txId txResult =
          { result := Except.ok doc, cache := cache, submissions := 0 })
    ∧ (∀ cache doc txId txId2 txResult2,
        updateDocument (insert cache doc txId { status := 200 }).cache
            (insert cache doc txId { status := 200 }).doc txId2 txResult2 =
          { result := Except.ok (insert cache doc txId { status := 200 }).doc,
            cache := (insert cache doc txId { status := 200 }).cache, submissions := 0 }) := by
  have base : ∀ cache doc txId txResult, isCached cache doc.txID (some doc.version) = true →
      updateDocument cache doc txId txResult =
        { result := Except.ok doc, cache := cache, submissions := 0 } := by
    intro cache doc txId txResult h
    simp [updateDocument, h]
  refine ⟨base, ?_⟩
  intro cache doc txId txId2 txResult2
  apply base
  simp [insert, isCached, cacheGet_set_self]

/-- Witness for C3 at a concrete cached document and a ledger that would
reject: no submission is made, the document and cache are untouched. -/
theorem updateDocument_idempotent_witness :
    updateDocument [("tx-a", sampleCachedDoc)] sampleCachedDoc "tx-b" { status := 500 } =
      { result := Except.ok sampleCachedDoc, cache := [("tx-a", sampleCachedDoc)],
        submissions := 0 } :=
  updateDocument_idempotent.1 [("tx-a", sampleCachedDoc)] sampleCachedDoc "tx-b"
    { status := 500 } (by decide)

/-- C4: when the cache holds a trustworthy (present and posted) entry for a
transaction id, `pollForConfirmation` short-circuits to the confirmed result
with zero status calls to the ledger.  The id must be a real (nonempty)
identifier, since the never-posted guard `if (!txId)` fires first. -/
theorem pollForConfirmation_cache_shortcircuit (cache : Cache) (txId : String)
    (maxRetries : Nat) (statusOf : Nat → TxStatus) (d : Document)
    (hne : txId ≠ "") (hget : cacheGet cache txId = some d) (hposted : d.posted = true) :
    pollForConfirmation cache txId maxRetries statusOf = (PollOutcome.cachedConfirmed, 0) := by
  have hh : cacheHas cache txId = true := by
    unfold cacheGet at hget
    simp [cacheHas, hget]
  simp [pollForConfirmation, hne, hh]

/-- Witness for C4: a posted cached entry short-circuits a poller whose
status oracle always reports pending. -/
theorem pollForConfirmation_cache_shortcircuit_witness :
    pollForConfirmation [("tx-a", sampleCachedDoc)] "tx-a" 10
        (fun _ => { status := 404, confirmedBlock := "" }) =
      (PollOutcome.cachedConfirmed, 0) :=
  pollForConfirmation_cache_shortcircuit _ _ 10 _ sampleCachedDoc (by decide) (by decide)
    (by decide)

/-- C8: the write path rejects exactly when the ledger reports a non-success
status, and a failed submission mutates nothing: the promise rejects with
the ledger result, the cache is unchanged, and the document keeps
`posted = false` and `txID` unset on `addDocument`; `updateDocument`'s
resubmission path likewise rejects and leaves the cache unchanged. -/
theorem insert_rejects_iff_nonsuccess :
    ∀ cache doc txId txResult,
      ((insert cache doc txId txResult).result.isOk = false ↔ txResult.status ≠ 200)
      ∧ (txResult.status ≠ 200 →
          insert cache doc txId txResult =
            { result := Except.error txResult, cache := cache, doc := doc })
      ∧ (∀ name content tags, txResult.status ≠ 200 →
          (addDocument cache name content tags txId txResult).cache = cache
          ∧ (addDocument cache name content tags txId txResult).doc.posted = false
          ∧ (addDocument cache name content tags txId txResult).doc.txID = none)
      ∧ (txResult.status ≠ 200 → isCached cache doc.txID (some doc.version) = false →
          updateDocument cache doc txId txResult =
            { result := Except.error txResult, cache := cache, submissions := 1 }) := by
  intro cache doc txId txResult
  by_cases h : txResult.status = 200
  · refine ⟨?_, ?_, ?_, ?_⟩ <;> simp [insert, addDocument, h, Except.isOk, Except.toBool]
  · refine ⟨?_, ?_, ?_, ?_⟩
    · simp [insert, h, Except.isOk, Except.toBool]
    · intro _
      simp [insert, h]
    · intro name content tags _
      refine ⟨?_, ?_, ?_⟩ <;> simp [addDocument, insert, h, mkDocument]
    · intro _ hmiss
      simp [updateDocument, hmiss, insert, h]

/-- Witness for C8: a 404 submission result makes `addDocument` reject and
leaves the fresh document unposted with no transaction id. -/
theorem insert_rejects_iff_nonsuccess_witness :
    insert [] sampleDocUnposted "tx-a" { status := 404 } =
      { result := Except.error { status := 404 }, cache := [], doc := sampleDocUnposted } :=
  (insert_rejects_iff_nonsuccess [] sampleDocUnposted "tx-a" { status := 404 }).2.1 (by decide)

/-- C10: a cache hit in `getDocumentByTxId` returns the cached document at
once: no confirmation polling (zero status calls), no owner verification
(even with `verifiedOnly` set) and no system-tag validation — the result is
a constant in everything the miss path would consult (`keyN`, `opts`,
`env`). -/
theorem getDocumentByTxId_cache_hit (keyN : String) (cache : Cache) (txId : String)
    (opts : FetchOptions) (env : ChainEnv) (d : Document)
    (hget : cacheGet cache txId = some d) :
    getDocumentByTxId keyN cache txId opts env =
      { result := Except.ok d, cache := cache, statusCalls := 0 } := by
  unfold getDocumentByTxId
  rw [hget]

/-- Witness for C10: with `verifiedOnly = true`, a mismatching owner in the
environment and an always-pending status oracle, a cache hit still returns
the cached document with zero status calls. -/
theorem getDocumentByTxId_cache_hit_witness :
    getDocumentByTxId "admin-key" [("tx-a", sampleCachedDoc)] "tx-a"
        { maxRetries := 10, verifiedOnly := true, maxResults := 25 } sampleEnv =
      { result := Except.ok sampleCachedDoc, cache := [("tx-a", sampleCachedDoc)],
        statusCalls := 0 } :=
  getDocumentByTxId_cache_hit "admin-key" [("tx-a", sampleCachedDoc)] "tx-a"
    { maxRetries := 10, verifiedOnly := true, maxResults := 25 } sampleEnv sampleCachedDoc
    (by decide)

/-! Behaviour of the backoff loop, by induction on the remaining attempts. -/

theorem backOffGo_step (statusOf : Nat → TxStatus) (i r : Nat) :
    backOffGo statusOf i (r + 1) =
      if (statusOf i).status = 200 then (Except.ok (statusOf i), 1)
      else if r = 0 then (Except.error (statusOf i).status, 1)
      else ((backOffGo statusOf (i + 1) r).1, (backOffGo statusOf (i + 1) r).2 + 1) := rfl

theorem backOffGo_all_fail (statusOf : Nat → TxStatus) :
    ∀ r i, 0 < r → (∀ j, j < r → (statusOf (i + j)).status ≠ 200) →
      backOffGo statusOf i r = (Except.error ((statusOf (i + (r - 1))).status), r) := by
  intro r
  induction r with
  | zero => intro i h; omega
  | succ n ih =>
    intro i _ hfail
    have h0 : (statusOf i).status ≠ 200 := by
      have := hfail 0 (by omega)
      simpa using this
    cases n with
    | zero =>
      rw [backOffGo_step, if_neg h0]
      simp
    | succ m =>
      have hrec := ih (i + 1) (by omega) (fun j hj => by
        have := hfail (j + 1) (by omega)
        have harith : i + (j + 1) = i + 1 + j := by omega
        rwa [harith] at this)
      have harith2 : i + 1 + (m + 1 - 1) = i + (m + 1 + 1 - 1) := by omega
      rw [backOffGo_step, if_neg h0, if_neg (by omega : ¬ m + 1 = 0), hrec, harith2]

theorem backOffGo_first_success (statusOf : Nat → TxStatus) :
    ∀ k r i, k < r → (∀ j, j < k → (statusOf (i + j)).status ≠ 200) →
      (statusOf (i + k)).status = 200 →
      backOffGo statusOf i r = (Except.ok (statusOf (i + k)), k + 1) := by
  intro k
  induction k with
  | zero =>
    intro r i hr _ hok
    cases r with
    | zero => omega
    | succ m =>
      simp only [Nat.add_zero] at hok ⊢
      rw [backOffGo_step, if_pos hok]
  | succ n ih =>
    intro r i hr hfail hok
    cases r with
    | zero => omega
    | succ m =>
      have h0 : (statusOf i).status ≠ 200 := by
        have := hfail 0 (by omega)
        simpa using this
      have hm : m ≠ 0 := by omega
      have hrec := ih m (i + 1) (by omega) (fun j hj => by
        have := hfail (j + 1) (by omega)
        have harith : i + (j + 1) = i + 1 + j := by omega
        rwa [harith] at this)
        (by have harith : i + (n + 1) = i + 1 + n := by omega
            rwa [harith] at hok)
      have harith2 : i + 1 + n = i + (n + 1) := by omega
      rw [backOffGo_step, if_neg h0, if_neg hm, hrec, harith2]

/-- C6: away from the cache short-circuit, a run of `pollForConfirmation`
whose status oracle never reports 200 makes exactly `maxRetries` status
attempts and then fails with the last pending status (the spec's
ConfirmationTimeout); and if some attempt is the first to report 200, the
poller resolves with that status object after exactly that many attempts.
`maxRetries` is assumed at least 1 (the backoff library floors the attempt
budget at one attempt). -/
theorem pollForConfirmation_retry_budget (cache : Cache) (txId : String) (maxRetries : Nat)
    (statusOf : Nat → TxStatus) (hne : txId ≠ "") (hmiss : cacheHas cache txId = false)
    (hpos : 1 ≤ maxRetries) :
    ((∀ i, i < maxRetries → (statusOf i).status ≠ 200) →
        pollForConfirmation cache txId maxRetries statusOf =
          (PollOutcome.result (Except.error ((statusOf (maxRetries - 1)).status)), maxRetries))
    ∧ (∀ k, k < maxRetries → (∀ j, j < k → (statusOf j).status ≠ 200) →
        (statusOf k).status = 200 →
        pollForConfirmation cache txId maxRetries statusOf =
          (PollOutcome.result (Except.ok (statusOf k)), k + 1)) := by
  have hmax : max maxRetries 1 = maxRetries := Nat.max_eq_left hpos
  constructor
  · intro hfail
    have hb := backOffGo_all_fail statusOf maxRetries 0 (by omega)
      (fun j hj => by simpa using hfail j hj)
    simp [pollForConfirmation, hne, hmiss, hmax, hb]
  · intro k hk hfail hok
    have hb := backOffGo_first_success statusOf k maxRetries 0 hk
      (fun j hj => by simpa using hfail j hj) (by simpa using hok)
    simp [pollForConfirmation, hne, hmiss, hmax, hb]

/-- Witness for C6: an always-202 oracle with a budget of three attempts
fails after exactly three status calls, reporting the last pending status. -/
theorem pollForConfirmation_retry_budget_witness :
    pollForConfirmation [] "tx-a" 3 (fun _ => { status := 202, confirmedBlock := "" }) =
      (PollOutcome.result (Except.error 202), 3) := by
  have h := (pollForConfirmation_retry_budget [] "tx-a" 3
      (fun _ => { status := 202, confirmedBlock := "" }) (by decide) (by decide) (by decide)).1
    (fun i _ => by decide)
  simpa using h

/-- C1 evaluation: with no requested version, `executeQuery` maps the
accumulated edges to ids in arrival order without any version sort (the
sorting branch of the ternary at src/index.js lines 280-286 runs only when
a version list IS given, inverting the intent of its own comment), so for
version tags [2, 0, 5] the no-version result keeps order [2, 0, 5] instead
of the claimed descending [5, 2, 0]; the same edges ARE sorted descending
when a version list is present. -/
theorem selectTxIds_no_version_is_unsorted :
    selectTxIds [] [vEdge "a" "2", vEdge "b" "0", vEdge "c" "5"] = some ["a", "b", "c"]
    ∧ (["a", "b", "c"] : List String) ≠ ["c", "a", "b"]
    ∧ selectTxIds [1] [vEdge "a" "2", vEdge "b" "0", vEdge "c" "5"] = some ["c", "a", "b"] := by
  refine ⟨?_, by decide, ?_⟩ <;> rfl

/-- C7: the resolution fan-out keeps exactly the successfully resolved
documents, in candidate order, dropping each failed candidate instead of
failing the query: the result length counts the successful resolutions and
every returned document is the resolution of some candidate. -/
theorem resolveDocs_partial_success :
    (∀ (resolve : String → Except GetError Document) (txIds : List String),
        (resolveDocs resolve txIds none).length =
          (txIds.filter (fun t => (resolve t).isOk)).length
        ∧ ∀ d, d ∈ resolveDocs resolve txIds none →
            ∃ t, t ∈ txIds ∧ resolve t = Except.ok d) := by
  intro resolve txIds
  constructor
  · induction txIds with
    | nil => simp [resolveDocs]
    | cons t ts ih =>
      simp only [resolveDocs, List.filterMap_cons, List.filter_cons]
      cases hr : resolve t with
      | error e =>
        simp only [Except.toOption, Except.isOk, Except.toBool]
        simpa [resolveDocs] using ih
      | ok d =>
        simp only [Except.toOption, Except.isOk, Except.toBool, if_pos rfl, List.length_cons]
        simpa [resolveDocs] using ih
  · intro d hd
    simp only [resolveDocs, List.mem_filterMap] at hd
    obtain ⟨t, ht, hres⟩ := hd
    refine ⟨t, ht, ?_⟩
    cases hr : resolve t <;> simp [hr, Except.toOption] at hres
    rw [hres]

/-- Witness for C7: out of three candidates with one ownership failure,
exactly two documents come back (and each comes from some candidate). -/
theorem resolveDocs_partial_success_witness :
    (resolveDocs sampleResolve ["t1", "t2", "t3"] none).length = 2
    ∧ ∃ t, t ∈ ["t1", "t2", "t3"] ∧ sampleResolve t = Except.ok (sampleResolvedDoc "t1") := by
  constructor
  · have h := (resolveDocs_partial_success sampleResolve ["t1", "t2", "t3"]).1
    simpa using h
  · exact (resolveDocs_partial_success sampleResolve ["t1", "t2", "t3"]).2
      (sampleResolvedDoc "t1") (by decide)

/-! Pagination loop: one-step unfolding, exit condition, concrete run. -/

theorem paginateGo_unfold (service : Nat → List Edge) (maxResults i : Nat) (acc : List Edge)
    (n : Nat) :
    paginateGo service maxResults i acc n =
      if 0 < n ∧ acc.length < maxResults then
        { paginateGo service maxResults (i + 1) (acc ++ service i) (service i).length with
          fetches := (paginateGo service maxResults (i + 1) (acc ++ service i) (service i).length).fetches + 1 }
      else { edges := acc, fetches := 0, lastN := n } := by
  rw [paginateGo]
  split <;> rfl

theorem paginateGo_exit (service : Nat → List Edge) (maxResults : Nat) :
    ∀ i acc n, (paginateGo service maxResults i acc n).lastN = 0
      ∨ maxResults ≤ (paginateGo service maxResults i acc n).edges.length := by
  intro i acc n
  induction i, acc, n using paginateGo.induct service maxResults with
  | case1 i acc n h ih =>
    rw [paginateGo_unfold, if_pos h]
    simpa using ih
  | case2 i acc n h =>
    rw [paginateGo_unfold, if_neg h]
    simp only []
    omega

theorem paginate_mock_eval :
    (paginate mockPages 50).edges.length = 50 ∧ (paginate mockPages 50).fetches = 2 := by
  have e2 : paginateGo mockPages 50 2
      ((([] : List Edge) ++ List.replicate 25 (vEdge "p" "0")) ++ List.replicate 25 (vEdge "p" "0")) 25 =
      { edges := (([] : List Edge) ++ List.replicate 25 (vEdge "p" "0")) ++ List.replicate 25 (vEdge "p" "0"),
        fetches := 0, lastN := 25 } := by
    rw [paginateGo_unfold, if_neg (show ¬ (0 < 25 ∧
      ((([] : List Edge) ++ List.replicate 25 (vEdge "p" "0")) ++ List.replicate 25 (vEdge "p" "0")).length < 50)
      by simp)]
  have e1 : paginateGo mockPages 50 1 (([] : List Edge) ++ List.replicate 25 (vEdge "p" "0")) 25 =
      { edges := (([] : List Edge) ++ List.replicate 25 (vEdge "p" "0")) ++ List.replicate 25 (vEdge "p" "0"),
        fetches := 1, lastN := 25 } := by
    rw [paginateGo_unfold, if_pos (show 0 < 25 ∧
      (([] : List Edge) ++ List.replicate 25 (vEdge "p" "0")).length < 50 by simp)]
    rw [show mockPages 1 = List.replicate 25 (vEdge "p" "0") from rfl]
    simp only [List.length_replicate]
    rw [e2]
  have e0 : paginateGo mockPages 50 0 ([] : List Edge) 1 =
      { edges := (([] : List Edge) ++ List.replicate 25 (vEdge "p" "0")) ++ List.replicate 25 (vEdge "p" "0"),
        fetches := 2, lastN := 25 } := by
    rw [paginateGo_unfold, if_pos (show 0 < 1 ∧ ([] : List Edge).length < 50 by simp)]
    rw [show mockPages 0 = List.replicate 25 (vEdge "p" "0") from rfl]
    simp only [List.length_replicate]
    rw [e1]
  have hp : paginate mockPages 50 =
      { edges := (([] : List Edge) ++ List.replicate 25 (vEdge "p" "0")) ++ List.replicate 25 (vEdge "p" "0"),
        fetches := 2, lastN := 25 } := e0
  rw [hp]
  simp

/-- C5 counterexample: for the claim's own mocked service (pages of sizes
25, 25, 3, 0) with `maxResults = 50`, the loop aggregates its 50 edges
after exactly 2 page fetches, not the claimed 3: the loop condition
`resultEdges.length < maxResults` is already false after the second fetch. -/
theorem paginate_mock_not_three_fetches :
    (paginate mockPages 50).edges.length = 50 ∧ (paginate mockPages 50).fetches = 2
    ∧ (paginate mockPages 50).fetches ≠ 3 := by
  refine ⟨paginate_mock_eval.1, paginate_mock_eval.2, ?_⟩
  rw [paginate_mock_eval.2]
  decide

/-- C5 amended: the pagination loop terminates (the model is a total
function), and it stops exactly when a fetched page is empty or the
accumulated edge count has reached `maxResults`; on the mocked page sizes
[25, 25, 3, 0] with `maxResults = 50` it aggregates exactly 50 edges after
exactly 2 page fetches. -/
theorem executeQuery_pagination_bounded :
    (∀ service maxResults, (paginate service maxResults).lastN = 0
        ∨ maxResults ≤ (paginate service maxResults).edges.length)
    ∧ (paginate mockPages 50).edges.length = 50 ∧ (paginate mockPages 50).fetches = 2 :=
  ⟨fun s m => paginateGo_exit s m 0 [] 1, paginate_mock_eval.1, paginate_mock_eval.2⟩

/-! Cache keying across the three inserting paths. -/

theorem getDocumentByTxId_miss_ok (keyN : String) (cache : Cache) (txId : String)
    (opts : FetchOptions) (env : ChainEnv) (d : Document)
    (hmiss : cacheGet cache txId = none)
    (hok : (getDocumentByTxId keyN cache txId opts env).result = Except.ok d) :
    (getDocumentByTxId keyN cache txId opts env).cache = cacheSet cache d.name d := by
  unfold getDocumentByTxId at hok ⊢
  rw [hmiss] at hok ⊢
  rcases hpoll : pollForConfirmation cache txId opts.maxRetries env.statusOf with ⟨po, c⟩
  rw [hpoll] at hok
  cases po with
  | rejectedUnposted => simp at hok
  | cachedConfirmed => simp at hok
  | result r =>
    cases r with
    | error s => simp at hok
    | ok ts =>
      by_cases hown : (opts.verifiedOnly && (env.metaOwner != keyN)) = true
      · simp [hown] at hok
      · simp only [Bool.not_eq_true] at hown
        by_cases htags : (!(env.metaTags.any (fun t => t.name == NAME)
            && env.metaTags.any (fun t => t.name == VERSION))) = true
        · simp [hown, htags] at hok
        · simp only [Bool.not_eq_true] at htags
          simp only [hown, htags, Bool.false_eq_true, if_false] at hok ⊢
          obtain ⟨rfl⟩ := hok
          rfl

/-- C9 counterexample: no single keying scheme covers all cache-inserting
paths: keying-by-name fails on the write path (`#insert` caches under the
transaction id, src/index.js line 136) and keying-by-transaction-id fails
on the read path (`getDocumentByTxId` caches under the document name,
src/index.js line 361), both exhibited on concrete inputs whose name
"alpha" differs from their transaction id "tx-1". -/
theorem cache_keying_not_uniform : ¬ uniformCacheKeying := by
  intro h
  rcases h with ⟨hIns, _, _⟩ | ⟨_, _, hRead⟩
  · have hc := hIns [] sampleDocUnposted "tx-1"
    exact absurd hc (by decide)
  · have hc := hRead "admin-key" [] "tx-1" optsNoVerify successEnv resolvedDoc rfl rfl
    exact absurd hc (by decide)

/-- C9 amended: the deployment does not use one uniform keying scheme; the
keying is split: the write path `#insert` keys its cache insertion by
transaction id, while the query path `executeQuery` and the read path
`getDocumentByTxId` key theirs by document name. -/
theorem cache_keying_split :
    insertKeyedByTx ∧ queryKeyedByName ∧ readKeyedByName := by
  refine ⟨?_, ?_, ?_⟩
  · intro cache doc txId
    simp [insert, cacheHas_set_self]
  · intro cache d
    simp [cacheAfterQuery, cacheHas_set_self]
  · intro keyN cache txId opts env d hmiss hok
    rw [getDocumentByTxId_miss_ok keyN cache txId opts env d hmiss hok]
    exact cacheHas_set_self cache d.name d

/-- Witness for C9 (amended): the concrete successful miss-path resolution
of "tx-1" inserts its cache entry under the resolved document's name. -/
theorem cache_keying_split_witness :
    cacheHas (getDocumentByTxId "admin-key" [] "tx-1" optsNoVerify successEnv).cache
      resolvedDoc.name = true :=
  cache_keying_split.2.2 "admin-key" [] "tx-1" optsNoVerify successEnv resolvedDoc rfl rfl

end ArWrapper
